import Mathlib

/-!
Verification of the donor-side tenant-migration coordination core
(`migrating_tenant_donor_util.cpp`): the donor state machine, the per-tenant
access blocker, and the `DataSync → Blocking` transition with its persistence
step.  The functions `onTransitionToBlocking`, `dataSync`,
`startTenantMigrationBlockOnPrimary` and `onTenantMigrationDonorStateTransition`
are embedded from the source file; the collaborators that the source only calls
(the access blocker, its registry, the storage/oplog primitives and the retry
wrapper) are modelled from the spec, as marked on each definition.
-/

namespace MigratingTenantDonor

/-- The four durable donor states (`TenantMigrationDonorStateEnum`):
`DataSync → Blocking → {Committed, Aborted}`. -/
inductive TenantMigrationDonorStateEnum
  | kDataSync
  | kBlocking
  | kCommitted
  | kAborted
  deriving DecidableEq, Repr

/-- Outcome of a fatal `invariant(...)` check or a `MONGO_UNREACHABLE` abort:
the operation aborts irrecoverably. -/
inductive FatalError
  | invariantFailure
  | unreachableError
  deriving DecidableEq, Repr

/-- Error codes surfaced as a definite `Status` failure to the caller. -/
inductive ErrorCode
  | namespaceNotFound
  deriving DecidableEq, Repr

/-- Modelled from the spec: an oplog slot (`OpTime`) reserved from the local
oplog by `LocalOplogInfo::getNextOpTimes`, a timestamp plus a term. -/
structure OplogSlot where
  timestamp : Nat
  term : Int
  deriving DecidableEq, Repr

/-- The durable donor migration record (`TenantMigrationDonorDocument`):
`{ id, databasePrefix, state, blockTimestamp }`. -/
structure TenantMigrationDonorDocument where
  id : Nat
  databasePrefix : String
  state : TenantMigrationDonorStateEnum
  blockTimestamp : Option Nat
  deriving DecidableEq, Repr

/-- Modelled from the spec: the essential state of a per-tenant
`MigratingTenantAccessBlocker` is `writesBlocked : bool` and
`readsBlockedAfter : Option<LogPosition>`. -/
structure MigratingTenantAccessBlocker where
  writesBlocked : Bool
  readsBlockedAfter : Option Nat
  deriving DecidableEq, Repr

/-- Modelled from the spec: a freshly constructed access blocker blocks
nothing. -/
def MigratingTenantAccessBlocker.new : MigratingTenantAccessBlocker :=
  { writesBlocked := false, readsBlockedAfter := none }

/-- Modelled from the spec: `startBlockingWrites` sets `writesBlocked := true`;
its precondition is that reads are not already blocked (calling out of order is
a programming error, treated as a fatal invariant failure). -/
def MigratingTenantAccessBlocker.startBlockingWrites
    (b : MigratingTenantAccessBlocker) :
    Except FatalError MigratingTenantAccessBlocker :=
  if b.readsBlockedAfter.isSome then .error .invariantFailure
  else .ok { b with writesBlocked := true }

/-- Modelled from the spec: `startBlockingReadsAfter position` sets
`readsBlockedAfter := some position`; its precondition is
`writesBlocked == true` (reads are never blocked before writes are). -/
def MigratingTenantAccessBlocker.startBlockingReadsAfter
    (b : MigratingTenantAccessBlocker) (position : Nat) :
    Except FatalError MigratingTenantAccessBlocker :=
  if b.writesBlocked then .ok { b with readsBlockedAfter := some position }
  else .error .invariantFailure

/-- Modelled from the spec: query used by the write path. -/
def MigratingTenantAccessBlocker.isBlockingWrites
    (b : MigratingTenantAccessBlocker) : Bool :=
  b.writesBlocked

/-- Modelled from the spec: query used by the read path. -/
def MigratingTenantAccessBlocker.blockedReadPosition
    (b : MigratingTenantAccessBlocker) : Option Nat :=
  b.readsBlockedAfter

/-- Modelled from the spec: `MigratingTenantAccessBlockerByPrefix`, the
process-wide directory from a database-name prefix to that tenant's access
blocker, as an association list. -/
abbrev MigratingTenantAccessBlockerByPrefix :=
  List (String × MigratingTenantAccessBlocker)

/-- Modelled from the spec: non-blocking registry lookup
(`getMigratingTenantBlocker`); absence means no migration is blocking the
tenant. -/
def getMigratingTenantBlocker (registry : MigratingTenantAccessBlockerByPrefix)
    (dbPrefix : String) : Option MigratingTenantAccessBlocker :=
  (registry.find? fun entry => entry.1 == dbPrefix).map fun entry => entry.2

/-- Modelled from the spec: `add` fails with a fatal invariant violation when an
entry already exists for the tenant (migrations are single-flight per
tenant). -/
def addBlocker (registry : MigratingTenantAccessBlockerByPrefix)
    (dbPrefix : String) (mtab : MigratingTenantAccessBlocker) :
    Except FatalError MigratingTenantAccessBlockerByPrefix :=
  match getMigratingTenantBlocker registry dbPrefix with
  | some _ => .error .invariantFailure
  | none => .ok (registry ++ [(dbPrefix, mtab)])

/-- Modelled from the spec: callers hold a shared, reference-counted handle to
the registered blocker, so mutating through the handle updates the registry's
entry in place. -/
def setBlocker (registry : MigratingTenantAccessBlockerByPrefix)
    (dbPrefix : String) (mtab : MigratingTenantAccessBlocker) :
    MigratingTenantAccessBlockerByPrefix :=
  registry.map fun entry => if entry.1 == dbPrefix then (dbPrefix, mtab) else entry

/-- Observable events of one execution, in program order: blocker operations,
registry registration, and the steps of the persistence closure. -/
inductive Event
  | evStartBlockingWrites (dbPrefix : String)
  | evAddBlocker (dbPrefix : String)
  | evStartBlockingReadsAfter (dbPrefix : String) (position : Nat)
  | evLookupCollection
  | evFindOne
  | evReserveOpTime (timestamp : Nat)
  | evUpdateDocument (timestamp : Nat)
  | evCommit (timestamp : Nat)
  deriving DecidableEq, Repr

/-- Whether an event is an oplog-slot reservation. -/
def Event.isReserveOpTime : Event → Bool
  | .evReserveOpTime _ => true
  | _ => false

/-- Whether an event is the collection lookup at the head of one persistence
attempt. -/
def Event.isLookupCollection : Event → Bool
  | .evLookupCollection => true
  | _ => false

/-- Whether an event is the `Helpers::findOne` re-read of the record. -/
def Event.isFindOne : Event → Bool
  | .evFindOne => true
  | _ => false

/-- The op-observer hook for a record that transitioned into the blocking state
(`onTransitionToBlocking` in the source): asserts the record's state and block
timestamp, on a secondary (writes not replicated) constructs and registers a
fresh blocker and calls `startBlockingWrites`, and on both roles calls
`startBlockingReadsAfter` with the record's block timestamp. -/
def onTransitionToBlocking (writesAreReplicated : Bool)
    (registry : MigratingTenantAccessBlockerByPrefix)
    (donorDoc : TenantMigrationDonorDocument) :
    Except FatalError (MigratingTenantAccessBlockerByPrefix × List Event) :=
  if donorDoc.state ≠ .kBlocking then .error .invariantFailure
  else
    match donorDoc.blockTimestamp with
    | none => .error .invariantFailure
    | some ts =>
      match getMigratingTenantBlocker registry donorDoc.databasePrefix with
      | some mtab =>
        if writesAreReplicated then
          match mtab.startBlockingReadsAfter ts with
          | .error e => .error e
          | .ok mtab2 =>
            .ok (setBlocker registry donorDoc.databasePrefix mtab2,
              [.evStartBlockingReadsAfter donorDoc.databasePrefix ts])
        else .error .invariantFailure
      | none =>
        if writesAreReplicated then .error .invariantFailure
        else
          match addBlocker registry donorDoc.databasePrefix
              MigratingTenantAccessBlocker.new with
          | .error e => .error e
          | .ok registry1 =>
            match MigratingTenantAccessBlocker.new.startBlockingWrites with
            | .error e => .error e
            | .ok mtab1 =>
              match mtab1.startBlockingReadsAfter ts with
              | .error e => .error e
              | .ok mtab2 =>
                .ok (setBlocker (setBlocker registry1 donorDoc.databasePrefix mtab1)
                    donorDoc.databasePrefix mtab2,
                  [.evAddBlocker donorDoc.databasePrefix,
                   .evStartBlockingWrites donorDoc.databasePrefix,
                   .evStartBlockingReadsAfter donorDoc.databasePrefix ts])

/-- The primary-role preparation step (`startTenantMigrationBlockOnPrimary` in
the source): asserts the record is in `DataSync`, constructs a fresh access
blocker, calls `startBlockingWrites` on it, then registers it under the
record's database prefix. -/
def startTenantMigrationBlockOnPrimary
    (registry : MigratingTenantAccessBlockerByPrefix)
    (donorDoc : TenantMigrationDonorDocument) :
    Except FatalError (MigratingTenantAccessBlockerByPrefix × List Event) :=
  if donorDoc.state ≠ .kDataSync then .error .invariantFailure
  else
    match MigratingTenantAccessBlocker.new.startBlockingWrites with
    | .error e => .error e
    | .ok mtab1 =>
      match addBlocker registry donorDoc.databasePrefix mtab1 with
      | .error e => .error e
      | .ok registry1 =>
        .ok (registry1,
          [.evStartBlockingWrites donorDoc.databasePrefix,
           .evAddBlocker donorDoc.databasePrefix])

/-- Modelled from the spec: the migration-donors collection, owned by the
storage collaborator. -/
structure CollectionState where
  docs : List TenantMigrationDonorDocument
  deriving DecidableEq, Repr

/-- Modelled from the spec: the storage collaborator's state — the
migration-donors collection (absent when the namespace does not exist), the
next reservable oplog timestamp with the current term, and the committed oplog
entries, each an assigned slot with the written document. -/
structure StorageState where
  collection : Option CollectionState
  nextTimestamp : Nat
  term : Int
  oplog : List (OplogSlot × TenantMigrationDonorDocument)
  deriving DecidableEq, Repr

/-- Result of the retry-wrapped persistence operation. -/
inductive RetryOutcome
  | ok (st : StorageState) (updatedDoc : TenantMigrationDonorDocument)
      (slot : OplogSlot)
  | err (code : ErrorCode)
  | fatalInv
  deriving DecidableEq, Repr

/-- The updated document built inside the persistence closure: `id` and
`databasePrefix` copied from the original record, state set to `kBlocking`,
and `blockTimestamp` set to the reserved slot's timestamp. -/
def updatedDocumentFor (originalDoc : TenantMigrationDonorDocument)
    (ts : Nat) : TenantMigrationDonorDocument :=
  { id := originalDoc.id
    databasePrefix := originalDoc.databasePrefix
    state := .kBlocking
    blockTimestamp := some ts }

/-- The persistence closure of `dataSync` under its `writeConflictRetry`
wrapper.  Each attempt opens the collection (a missing namespace is returned as
a definite `NamespaceNotFound` status, not retried), re-reads the record with
`Helpers::findOne` (fatal invariant if absent), reserves the next oplog slot,
and updates the document at that slot inside one write unit of work.
Modelled from the spec: the retry wrapper itself — `conflicts` counts the
leading attempts that abort with a transient write conflict at the document
update (the unit of work rolls back, the consumed oplog slot leaves a hole)
before one attempt runs conflict-free; each retry re-runs the whole closure. -/
def doStartBlockingWrite (originalDoc : TenantMigrationDonorDocument) :
    Nat → StorageState → RetryOutcome × List Event
  | conflicts, st =>
    match st.collection with
    | none => (.err .namespaceNotFound, [.evLookupCollection])
    | some coll =>
      match coll.docs.findIdx? (fun d => decide (d = originalDoc)) with
      | none => (.fatalInv, [.evLookupCollection, .evFindOne])
      | some i =>
        let ts := st.nextTimestamp
        match conflicts with
        | Nat.succ n =>
          let r := doStartBlockingWrite originalDoc n
            { st with nextTimestamp := ts + 1 }
          (r.1, [.evLookupCollection, .evFindOne, .evReserveOpTime ts] ++ r.2)
        | 0 =>
          let updatedDoc := updatedDocumentFor originalDoc ts
          (.ok
            { collection := some ⟨coll.docs.set i updatedDoc⟩
              nextTimestamp := ts + 1
              term := st.term
              oplog := st.oplog ++ [(⟨ts, st.term⟩, updatedDoc)] }
            updatedDoc ⟨ts, st.term⟩,
           [.evLookupCollection, .evFindOne, .evReserveOpTime ts,
            .evUpdateDocument ts, .evCommit ts])

/-- Outcome of the `dataSync` transition as seen by its caller, carrying the
registry, the storage state and the event trace for the non-fatal outcomes. -/
inductive DataSyncOutcome
  | ok (registry : MigratingTenantAccessBlockerByPrefix) (st : StorageState)
      (updatedDoc : TenantMigrationDonorDocument) (slot : OplogSlot)
      (trace : List Event)
  | err (code : ErrorCode) (registry : MigratingTenantAccessBlockerByPrefix)
      (st : StorageState) (trace : List Event)
  | fatal (e : FatalError)
  deriving DecidableEq, Repr

/-- Whether a `dataSync` outcome is a definite (non-fatal) failure. -/
def DataSyncOutcome.isErr : DataSyncOutcome → Bool
  | .err _ _ _ _ => true
  | _ => false

/-- The registry left behind by a non-fatal `dataSync` outcome. -/
def DataSyncOutcome.registryAfter :
    DataSyncOutcome → Option MigratingTenantAccessBlockerByPrefix
  | .ok registry _ _ _ _ => some registry
  | .err _ registry _ _ => some registry
  | .fatal _ => none

/-- The `DataSync → Blocking` transition driver on the primary (`dataSync` in
the source): first `startTenantMigrationBlockOnPrimary` (blocker created,
`startBlockingWrites`, registration), then the `invariant` that the record is
in `DataSync`, then the retry-wrapped persistence closure, whose error status
is surfaced to the caller by `uassertStatusOK`. -/
def dataSync (registry : MigratingTenantAccessBlockerByPrefix)
    (originalDoc : TenantMigrationDonorDocument) (st : StorageState)
    (conflicts : Nat) : DataSyncOutcome :=
  match startTenantMigrationBlockOnPrimary registry originalDoc with
  | .error e => .fatal e
  | .ok (registry1, trace1) =>
    if originalDoc.state ≠ .kDataSync then .fatal .invariantFailure
    else
      match doStartBlockingWrite originalDoc conflicts st with
      | (.ok st2 updatedDoc slot, trace2) =>
        .ok registry1 st2 updatedDoc slot (trace1 ++ trace2)
      | (.err code, trace2) => .err code registry1 st (trace1 ++ trace2)
      | (.fatalInv, _) => .fatal .invariantFailure

/-- The record as observed by the replay dispatcher before parsing: the state
is still the raw enum value carried by the document. -/
structure RawDonorDocument where
  id : Nat
  databasePrefix : String
  stateCode : Nat
  blockTimestamp : Option Nat
  deriving DecidableEq, Repr

/-- The raw value of each state enumerant. -/
def stateCodeOf : TenantMigrationDonorStateEnum → Nat
  | .kDataSync => 0
  | .kBlocking => 1
  | .kCommitted => 2
  | .kAborted => 3

/-- The raw form of a typed donor document. -/
def RawDonorDocument.ofDoc (doc : TenantMigrationDonorDocument) :
    RawDonorDocument :=
  { id := doc.id
    databasePrefix := doc.databasePrefix
    stateCode := stateCodeOf doc.state
    blockTimestamp := doc.blockTimestamp }

/-- The replay dispatcher (`onTenantMigrationDonorStateTransition` in the
source): switches on the observed record's state — `kDataSync`, `kCommitted`
and `kAborted` records are no-ops, `kBlocking` records are routed to
`onTransitionToBlocking`, and any other state value hits the `default:
MONGO_UNREACHABLE` branch.  The document parse is modelled from the spec (the
generated parser is not part of this file's sources). -/
def onTenantMigrationDonorStateTransition (writesAreReplicated : Bool)
    (registry : MigratingTenantAccessBlockerByPrefix)
    (doc : RawDonorDocument) :
    Except FatalError (MigratingTenantAccessBlockerByPrefix × List Event) :=
  match doc.stateCode with
  | 0 => .ok (registry, [])
  | 1 =>
    onTransitionToBlocking writesAreReplicated registry
      { id := doc.id
        databasePrefix := doc.databasePrefix
        state := .kBlocking
        blockTimestamp := doc.blockTimestamp }
  | 2 => .ok (registry, [])
  | 3 => .ok (registry, [])
  | _ => .error .unreachableError

/-- Modelled from the spec: the observer hook is invoked once per observed
record mutation, so a successful `dataSync` write on the primary is followed by
exactly one dispatcher call on the updated document, with writes replicated. -/
def primaryBlockingTransition (registry : MigratingTenantAccessBlockerByPrefix)
    (originalDoc : TenantMigrationDonorDocument) (st : StorageState)
    (conflicts : Nat) : DataSyncOutcome :=
  match dataSync registry originalDoc st conflicts with
  | .ok registry1 st2 updatedDoc slot trace1 =>
    match onTenantMigrationDonorStateTransition true registry1
        (RawDonorDocument.ofDoc updatedDoc) with
    | .error e => .fatal e
    | .ok (registry2, trace2) =>
      .ok registry2 st2 updatedDoc slot (trace1 ++ trace2)
  | other => other

/-- The events of the `conflicts` leading persistence attempts that abort with
a write conflict: each re-runs the collection lookup, the record re-read, and
a fresh oplog-slot reservation. -/
def conflictTrace : Nat → Nat → List Event
  | 0, _ => []
  | Nat.succ n, t0 =>
    [.evLookupCollection, .evFindOne, .evReserveOpTime t0] ++
      conflictTrace n (t0 + 1)

/-- A sample record in `DataSync` for tenant prefix "t1". -/
def sampleDoc : TenantMigrationDonorDocument :=
  { id := 1, databasePrefix := "t1", state := .kDataSync, blockTimestamp := none }

/-- A sample collection holding exactly the sample record. -/
def sampleColl : CollectionState := ⟨[sampleDoc]⟩

/-- A sample storage state with the collection present. -/
def sampleStorage : StorageState :=
  { collection := some sampleColl, nextTimestamp := 5, term := 1, oplog := [] }

/-- A sample storage state whose migration-donors collection is absent. -/
def sampleStorageNoColl : StorageState :=
  { collection := none, nextTimestamp := 5, term := 1, oplog := [] }

/-- A sample record already in `Blocking` with boundary timestamp 7. -/
def sampleBlockingDoc : TenantMigrationDonorDocument :=
  { id := 1, databasePrefix := "t1", state := .kBlocking, blockTimestamp := some 7 }

/-- Unfolding a registry lookup over a cons cell. -/
theorem getMigratingTenantBlocker_cons
    (entry : String × MigratingTenantAccessBlocker)
    (rest : MigratingTenantAccessBlockerByPrefix) (dbPrefix : String) :
    getMigratingTenantBlocker (entry :: rest) dbPrefix =
      if entry.1 == dbPrefix then some entry.2
      else getMigratingTenantBlocker rest dbPrefix := by
  by_cases he : (entry.1 == dbPrefix) = true
  · simp [getMigratingTenantBlocker, List.find?_cons_of_pos, he]
  · simp [getMigratingTenantBlocker, List.find?_cons_of_neg _ he, he]

/-- Unfolding a shared-handle mutation over a cons cell. -/
theorem setBlocker_cons (entry : String × MigratingTenantAccessBlocker)
    (rest : MigratingTenantAccessBlockerByPrefix) (dbPrefix : String)
    (mtab : MigratingTenantAccessBlocker) :
    setBlocker (entry :: rest) dbPrefix mtab =
      (if entry.1 == dbPrefix then (dbPrefix, mtab) else entry) ::
        setBlocker rest dbPrefix mtab := by
  simp [setBlocker]

/-- Looking up a freshly appended entry finds it when the key was absent. -/
theorem getMigratingTenantBlocker_append_single
    (registry : MigratingTenantAccessBlockerByPrefix) (dbPrefix : String)
    (mtab : MigratingTenantAccessBlocker)
    (h : getMigratingTenantBlocker registry dbPrefix = none) :
    getMigratingTenantBlocker (registry ++ [(dbPrefix, mtab)]) dbPrefix =
      some mtab := by
  induction registry with
  | nil => simp [getMigratingTenantBlocker]
  | cons entry rest ih =>
    rw [getMigratingTenantBlocker_cons] at h
    rw [List.cons_append, getMigratingTenantBlocker_cons]
    by_cases he : (entry.1 == dbPrefix) = true
    · simp [he] at h
    · simp only [he, if_false] at h ⊢
      exact ih h

/-- Mutating the registered blocker through the shared handle is observed by a
subsequent lookup, provided the key is present. -/
theorem getMigratingTenantBlocker_setBlocker
    (registry : MigratingTenantAccessBlockerByPrefix) (dbPrefix : String)
    (b0 mtab : MigratingTenantAccessBlocker)
    (h : getMigratingTenantBlocker registry dbPrefix = some b0) :
    getMigratingTenantBlocker (setBlocker registry dbPrefix mtab) dbPrefix =
      some mtab := by
  induction registry with
  | nil => simp [getMigratingTenantBlocker] at h
  | cons entry rest ih =>
    rw [getMigratingTenantBlocker_cons] at h
    rw [setBlocker_cons, getMigratingTenantBlocker_cons]
    by_cases he : (entry.1 == dbPrefix) = true
    · simp [he]
    · simp only [if_neg he] at h ⊢
      exact ih h

/-- Closed form of the retry-wrapped persistence operation when the collection
is present and the original record is found: every leading conflicted attempt
re-runs the lookup, the re-read and a fresh reservation, and the final attempt
commits the updated document at the last reserved slot. -/
theorem doStartBlockingWrite_ok (originalDoc : TenantMigrationDonorDocument)
    (conflicts : Nat) :
    ∀ (st : StorageState) (coll : CollectionState) (i : Nat),
      st.collection = some coll →
      coll.docs.findIdx? (fun d => decide (d = originalDoc)) = some i →
      doStartBlockingWrite originalDoc conflicts st =
        (.ok
          { collection := some ⟨coll.docs.set i
              (updatedDocumentFor originalDoc (st.nextTimestamp + conflicts))⟩
            nextTimestamp := st.nextTimestamp + conflicts + 1
            term := st.term
            oplog := st.oplog ++
              [(⟨st.nextTimestamp + conflicts, st.term⟩,
                updatedDocumentFor originalDoc (st.nextTimestamp + conflicts))] }
          (updatedDocumentFor originalDoc (st.nextTimestamp + conflicts))
          ⟨st.nextTimestamp + conflicts, st.term⟩,
         conflictTrace conflicts st.nextTimestamp ++
           [.evLookupCollection, .evFindOne,
            .evReserveOpTime (st.nextTimestamp + conflicts),
            .evUpdateDocument (st.nextTimestamp + conflicts),
            .evCommit (st.nextTimestamp + conflicts)]) := by
  induction conflicts with
  | zero =>
    intro st coll i hc hf
    simp [doStartBlockingWrite, hc, hf, conflictTrace]
  | succ n ih =>
    intro st coll i hc hf
    rw [doStartBlockingWrite]
    simp only [hc, hf]
    have hrec := ih ⟨some coll, st.nextTimestamp + 1, st.term, st.oplog⟩ coll i rfl hf
    rw [hrec]
    simp [conflictTrace, Nat.add_assoc, Nat.add_comm, Nat.add_left_comm]

/-- A retried attempt never calls `startBlockingReadsAfter`. -/
theorem conflictTrace_no_readsAfter (n t0 : Nat) (q : String) (x : Nat) :
    Event.evStartBlockingReadsAfter q x ∉ conflictTrace n t0 := by
  induction n generalizing t0 with
  | zero => simp [conflictTrace]
  | succ m ih => simp [conflictTrace, ih]

/-- A retried attempt never calls `startBlockingWrites`. -/
theorem conflictTrace_no_blockingWrites (n t0 : Nat) (q : String) :
    Event.evStartBlockingWrites q ∉ conflictTrace n t0 := by
  induction n generalizing t0 with
  | zero => simp [conflictTrace]
  | succ m ih => simp [conflictTrace, ih]

/-- Each conflicted attempt opens the collection exactly once. -/
theorem conflictTrace_countP_lookup (n t0 : Nat) :
    (conflictTrace n t0).countP Event.isLookupCollection = n := by
  induction n generalizing t0 with
  | zero => simp [conflictTrace]
  | succ m ih =>
    simp [conflictTrace, List.countP_cons, Event.isLookupCollection, ih]

/-- Each conflicted attempt re-reads the record exactly once. -/
theorem conflictTrace_countP_findOne (n t0 : Nat) :
    (conflictTrace n t0).countP Event.isFindOne = n := by
  induction n generalizing t0 with
  | zero => simp [conflictTrace]
  | succ m ih =>
    simp [conflictTrace, List.countP_cons, Event.isFindOne, ih]

/-- Each conflicted attempt reserves a fresh oplog slot exactly once. -/
theorem conflictTrace_countP_reserve (n t0 : Nat) :
    (conflictTrace n t0).countP Event.isReserveOpTime = n := by
  induction n generalizing t0 with
  | zero => simp [conflictTrace]
  | succ m ih =>
    simp [conflictTrace, List.countP_cons, Event.isReserveOpTime, ih]

/-- On a `DataSync` record with no blocker yet registered, the primary-role
preparation succeeds: the fresh blocker has its writes-blocked flag set before
it is registered, and both events are recorded in that order. -/
theorem startTenantMigrationBlockOnPrimary_ok
    (registry : MigratingTenantAccessBlockerByPrefix)
    (donorDoc : TenantMigrationDonorDocument)
    (hstate : donorDoc.state = .kDataSync)
    (hreg : getMigratingTenantBlocker registry donorDoc.databasePrefix = none) :
    startTenantMigrationBlockOnPrimary registry donorDoc =
      .ok (registry ++ [(donorDoc.databasePrefix,
            { writesBlocked := true, readsBlockedAfter := none })],
        [.evStartBlockingWrites donorDoc.databasePrefix,
         .evAddBlocker donorDoc.databasePrefix]) := by
  simp [startTenantMigrationBlockOnPrimary, hstate,
    MigratingTenantAccessBlocker.new,
    MigratingTenantAccessBlocker.startBlockingWrites, addBlocker, hreg]

/-- On the primary, the op-observer call on a valid blocking record finds the
already-registered blocker (writes already blocked) and only sets its blocked
read position. -/
theorem onTransitionToBlocking_primary_ok
    (registry : MigratingTenantAccessBlockerByPrefix)
    (donorDoc : TenantMigrationDonorDocument) (ts : Nat)
    (b : MigratingTenantAccessBlocker)
    (hstate : donorDoc.state = .kBlocking)
    (hts : donorDoc.blockTimestamp = some ts)
    (hreg : getMigratingTenantBlocker registry donorDoc.databasePrefix = some b)
    (hw : b.writesBlocked = true) :
    onTransitionToBlocking true registry donorDoc =
      .ok (setBlocker registry donorDoc.databasePrefix
            { b with readsBlockedAfter := some ts },
        [.evStartBlockingReadsAfter donorDoc.databasePrefix ts]) := by
  simp [onTransitionToBlocking, hstate, hts, hreg,
    MigratingTenantAccessBlocker.startBlockingReadsAfter, hw]

/-- On a secondary (writes not replicated), the op-observer call on a valid
blocking record with no blocker registered constructs one, registers it, then
blocks writes and reads, in that order. -/
theorem onTransitionToBlocking_replica_ok
    (registry : MigratingTenantAccessBlockerByPrefix)
    (donorDoc : TenantMigrationDonorDocument) (ts : Nat)
    (hstate : donorDoc.state = .kBlocking)
    (hts : donorDoc.blockTimestamp = some ts)
    (hreg : getMigratingTenantBlocker registry donorDoc.databasePrefix = none) :
    onTransitionToBlocking false registry donorDoc =
      .ok (setBlocker
            (setBlocker (registry ++ [(donorDoc.databasePrefix,
                MigratingTenantAccessBlocker.new)])
              donorDoc.databasePrefix
              { writesBlocked := true, readsBlockedAfter := none })
            donorDoc.databasePrefix
            { writesBlocked := true, readsBlockedAfter := some ts },
        [.evAddBlocker donorDoc.databasePrefix,
         .evStartBlockingWrites donorDoc.databasePrefix,
         .evStartBlockingReadsAfter donorDoc.databasePrefix ts]) := by
  simp [onTransitionToBlocking, hstate, hts, hreg, addBlocker,
    MigratingTenantAccessBlocker.new,
    MigratingTenantAccessBlocker.startBlockingWrites,
    MigratingTenantAccessBlocker.startBlockingReadsAfter]

/-- Closed form of a successful `dataSync`: the blocker is prepared and
registered first, then the persistence operation commits the updated document
at the reserved slot after `conflicts` retried attempts. -/
theorem dataSync_ok (registry : MigratingTenantAccessBlockerByPrefix)
    (originalDoc : TenantMigrationDonorDocument) (st : StorageState)
    (conflicts : Nat) (coll : CollectionState) (i : Nat)
    (hstate : originalDoc.state = .kDataSync)
    (hreg : getMigratingTenantBlocker registry originalDoc.databasePrefix = none)
    (hc : st.collection = some coll)
    (hf : coll.docs.findIdx? (fun d => decide (d = originalDoc)) = some i) :
    dataSync registry originalDoc st conflicts =
      .ok (registry ++ [(originalDoc.databasePrefix,
            { writesBlocked := true, readsBlockedAfter := none })])
        { collection := some ⟨coll.docs.set i
            (updatedDocumentFor originalDoc (st.nextTimestamp + conflicts))⟩
          nextTimestamp := st.nextTimestamp + conflicts + 1
          term := st.term
          oplog := st.oplog ++
            [(⟨st.nextTimestamp + conflicts, st.term⟩,
              updatedDocumentFor originalDoc (st.nextTimestamp + conflicts))] }
        (updatedDocumentFor originalDoc (st.nextTimestamp + conflicts))
        ⟨st.nextTimestamp + conflicts, st.term⟩
        ([.evStartBlockingWrites originalDoc.databasePrefix,
          .evAddBlocker originalDoc.databasePrefix] ++
         conflictTrace conflicts st.nextTimestamp ++
           [.evLookupCollection, .evFindOne,
            .evReserveOpTime (st.nextTimestamp + conflicts),
            .evUpdateDocument (st.nextTimestamp + conflicts),
            .evCommit (st.nextTimestamp + conflicts)]) := by
  rw [dataSync, startTenantMigrationBlockOnPrimary_ok registry originalDoc hstate hreg,
    doStartBlockingWrite_ok originalDoc conflicts st coll i hc hf]
  simp [hstate]

/-- Closed form of the whole primary-role `DataSync → Blocking` transition
(`dataSync` followed by the op-observer call on the committed update): the
blocker is registered with writes blocked, the update is persisted at the
reserved slot, and the observer sets the blocked read position to exactly the
reserved timestamp. -/
theorem primaryBlockingTransition_ok
    (registry : MigratingTenantAccessBlockerByPrefix)
    (originalDoc : TenantMigrationDonorDocument) (st : StorageState)
    (conflicts : Nat) (coll : CollectionState) (i : Nat)
    (hstate : originalDoc.state = .kDataSync)
    (hreg : getMigratingTenantBlocker registry originalDoc.databasePrefix = none)
    (hc : st.collection = some coll)
    (hf : coll.docs.findIdx? (fun d => decide (d = originalDoc)) = some i) :
    primaryBlockingTransition registry originalDoc st conflicts =
      .ok
        (setBlocker (registry ++ [(originalDoc.databasePrefix,
            { writesBlocked := true, readsBlockedAfter := none })])
          originalDoc.databasePrefix
          { writesBlocked := true,
            readsBlockedAfter := some (st.nextTimestamp + conflicts) })
        { collection := some ⟨coll.docs.set i
            (updatedDocumentFor originalDoc (st.nextTimestamp + conflicts))⟩
          nextTimestamp := st.nextTimestamp + conflicts + 1
          term := st.term
          oplog := st.oplog ++
            [(⟨st.nextTimestamp + conflicts, st.term⟩,
              updatedDocumentFor originalDoc (st.nextTimestamp + conflicts))] }
        (updatedDocumentFor originalDoc (st.nextTimestamp + conflicts))
        ⟨st.nextTimestamp + conflicts, st.term⟩
        (Event.evStartBlockingWrites originalDoc.databasePrefix ::
         Event.evAddBlocker originalDoc.databasePrefix ::
         (conflictTrace conflicts st.nextTimestamp ++
           [.evLookupCollection, .evFindOne,
            .evReserveOpTime (st.nextTimestamp + conflicts),
            .evUpdateDocument (st.nextTimestamp + conflicts),
            .evCommit (st.nextTimestamp + conflicts)] ++
           [.evStartBlockingReadsAfter originalDoc.databasePrefix
              (st.nextTimestamp + conflicts)])) := by
  have h2 : getMigratingTenantBlocker
      (registry ++ [(originalDoc.databasePrefix,
        { writesBlocked := true, readsBlockedAfter := none })])
      originalDoc.databasePrefix =
      some { writesBlocked := true, readsBlockedAfter := none } :=
    getMigratingTenantBlocker_append_single registry _ _ hreg
  have h3 := onTransitionToBlocking_primary_ok
    (registry ++ [(originalDoc.databasePrefix,
      { writesBlocked := true, readsBlockedAfter := none })])
    (updatedDocumentFor originalDoc (st.nextTimestamp + conflicts))
    (st.nextTimestamp + conflicts)
    { writesBlocked := true, readsBlockedAfter := none }
    rfl rfl h2 rfl
  rw [primaryBlockingTransition,
    dataSync_ok registry originalDoc st conflicts coll i hstate hreg hc hf]
  simp only [onTenantMigrationDonorStateTransition, RawDonorDocument.ofDoc,
    updatedDocumentFor, stateCodeOf] at h3 ⊢
  rw [h3]
  simp

/-- C1: for every record in state `DataSync` whose database prefix has no
registered blocker (the registry lookup before the transition returns none),
the primary-role `DataSync → Blocking` transition yields a persisted record
with state `Blocking` and `blockTimestamp` equal to a newly reserved position
`P`, and a blocker registered under the prefix with
`isBlockingWrites = true` and `blockedReadPosition = some P`. -/
theorem c1_end_to_end_scenario
    (registry : MigratingTenantAccessBlockerByPrefix)
    (originalDoc : TenantMigrationDonorDocument) (st : StorageState)
    (conflicts : Nat) (coll : CollectionState) (i : Nat)
    (hstate : originalDoc.state = .kDataSync)
    (hreg : getMigratingTenantBlocker registry originalDoc.databasePrefix = none)
    (hc : st.collection = some coll)
    (hf : coll.docs.findIdx? (fun d => decide (d = originalDoc)) = some i) :
    ∃ (P : Nat) (registry2 : MigratingTenantAccessBlockerByPrefix)
      (st2 : StorageState) (slot : OplogSlot) (trace : List Event),
      primaryBlockingTransition registry originalDoc st conflicts =
        .ok registry2 st2 (updatedDocumentFor originalDoc P) slot trace ∧
      (updatedDocumentFor originalDoc P).state = .kBlocking ∧
      (updatedDocumentFor originalDoc P).blockTimestamp = some P ∧
      st2.collection =
        some ⟨coll.docs.set i (updatedDocumentFor originalDoc P)⟩ ∧
      (getMigratingTenantBlocker registry2 originalDoc.databasePrefix).map
          MigratingTenantAccessBlocker.isBlockingWrites = some true ∧
      (getMigratingTenantBlocker registry2 originalDoc.databasePrefix).bind
          MigratingTenantAccessBlocker.blockedReadPosition = some P := by
  have hget : getMigratingTenantBlocker
      (setBlocker (registry ++ [(originalDoc.databasePrefix,
        { writesBlocked := true, readsBlockedAfter := none })])
        originalDoc.databasePrefix
        { writesBlocked := true,
          readsBlockedAfter := some (st.nextTimestamp + conflicts) })
      originalDoc.databasePrefix =
      some { writesBlocked := true,
             readsBlockedAfter := some (st.nextTimestamp + conflicts) } :=
    getMigratingTenantBlocker_setBlocker _ _ _ _
      (getMigratingTenantBlocker_append_single registry _ _ hreg)
  refine ⟨st.nextTimestamp + conflicts, _, _, _, _,
    primaryBlockingTransition_ok registry originalDoc st conflicts coll i
      hstate hreg hc hf, rfl, rfl, rfl, ?_, ?_⟩
  · rw [hget]; rfl
  · rw [hget]; rfl

/-- C1 witness: the scenario at tenant "t1" with a singleton collection. -/
theorem c1_end_to_end_scenario_witness :
    ∃ (P : Nat) (registry2 : MigratingTenantAccessBlockerByPrefix)
      (st2 : StorageState) (slot : OplogSlot) (trace : List Event),
      primaryBlockingTransition [] sampleDoc sampleStorage 0 =
        .ok registry2 st2 (updatedDocumentFor sampleDoc P) slot trace ∧
      (updatedDocumentFor sampleDoc P).state = .kBlocking ∧
      (updatedDocumentFor sampleDoc P).blockTimestamp = some P ∧
      st2.collection =
        some ⟨sampleColl.docs.set 0 (updatedDocumentFor sampleDoc P)⟩ ∧
      (getMigratingTenantBlocker registry2 sampleDoc.databasePrefix).map
          MigratingTenantAccessBlocker.isBlockingWrites = some true ∧
      (getMigratingTenantBlocker registry2 sampleDoc.databasePrefix).bind
          MigratingTenantAccessBlocker.blockedReadPosition = some P :=
  c1_end_to_end_scenario [] sampleDoc sampleStorage 0 sampleColl 0
    rfl rfl rfl (by decide)

/-- C2: in every successful primary-role execution of the transition the trace
opens with `startBlockingWrites`, so it precedes every oplog-slot reservation
including the boundary reservation `P`; the single `startBlockingReadsAfter`
call is the final event and carries exactly the reserved position `P`; no
`startBlockingReadsAfter` occurs anywhere before it. -/
theorem c2_primary_three_step_order
    (registry : MigratingTenantAccessBlockerByPrefix)
    (originalDoc : TenantMigrationDonorDocument) (st : StorageState)
    (conflicts : Nat) (coll : CollectionState) (i : Nat)
    (hstate : originalDoc.state = .kDataSync)
    (hreg : getMigratingTenantBlocker registry originalDoc.databasePrefix = none)
    (hc : st.collection = some coll)
    (hf : coll.docs.findIdx? (fun d => decide (d = originalDoc)) = some i) :
    ∃ (P : Nat) (R : List Event)
      (registry2 : MigratingTenantAccessBlockerByPrefix) (st2 : StorageState)
      (slot : OplogSlot),
      primaryBlockingTransition registry originalDoc st conflicts =
        .ok registry2 st2 (updatedDocumentFor originalDoc P) slot
          (Event.evStartBlockingWrites originalDoc.databasePrefix ::
            Event.evAddBlocker originalDoc.databasePrefix ::
            (R ++ [Event.evStartBlockingReadsAfter
              originalDoc.databasePrefix P])) ∧
      Event.evReserveOpTime P ∈ R ∧
      (∀ q x, Event.evStartBlockingReadsAfter q x ∉ R) ∧
      (∀ q, Event.evStartBlockingWrites q ∉ R) := by
  refine ⟨st.nextTimestamp + conflicts,
    conflictTrace conflicts st.nextTimestamp ++
      [.evLookupCollection, .evFindOne,
       .evReserveOpTime (st.nextTimestamp + conflicts),
       .evUpdateDocument (st.nextTimestamp + conflicts),
       .evCommit (st.nextTimestamp + conflicts)],
    _, _, _,
    primaryBlockingTransition_ok registry originalDoc st conflicts coll i
      hstate hreg hc hf, ?_, ?_, ?_⟩
  · simp
  · intro q x
    simp [conflictTrace_no_readsAfter]
  · intro q
    simp [conflictTrace_no_blockingWrites]

/-- C2 witness: the ordering at tenant "t1" with one conflicted attempt. -/
theorem c2_primary_three_step_order_witness :
    ∃ (P : Nat) (R : List Event)
      (registry2 : MigratingTenantAccessBlockerByPrefix) (st2 : StorageState)
      (slot : OplogSlot),
      primaryBlockingTransition [] sampleDoc sampleStorage 1 =
        .ok registry2 st2 (updatedDocumentFor sampleDoc P) slot
          (Event.evStartBlockingWrites sampleDoc.databasePrefix ::
            Event.evAddBlocker sampleDoc.databasePrefix ::
            (R ++ [Event.evStartBlockingReadsAfter
              sampleDoc.databasePrefix P])) ∧
      Event.evReserveOpTime P ∈ R ∧
      (∀ q x, Event.evStartBlockingReadsAfter q x ∉ R) ∧
      (∀ q, Event.evStartBlockingWrites q ∉ R) :=
  c2_primary_three_step_order [] sampleDoc sampleStorage 1 sampleColl 0
    rfl rfl rfl (by decide)

/-- C3: the persisted `DataSync → Blocking` update commits exactly one oplog
entry, whose assigned slot is the reserved one, with the slot's timestamp
written into the updated document's `blockTimestamp`, and with `id` and
`databasePrefix` carried over unchanged from the original record. -/
theorem c3_atomic_commit_at_reserved_slot
    (registry : MigratingTenantAccessBlockerByPrefix)
    (originalDoc : TenantMigrationDonorDocument) (st : StorageState)
    (conflicts : Nat) (coll : CollectionState) (i : Nat)
    (hstate : originalDoc.state = .kDataSync)
    (hreg : getMigratingTenantBlocker registry originalDoc.databasePrefix = none)
    (hc : st.collection = some coll)
    (hf : coll.docs.findIdx? (fun d => decide (d = originalDoc)) = some i) :
    ∃ (P : Nat) (registry2 : MigratingTenantAccessBlockerByPrefix)
      (trace : List Event),
      dataSync registry originalDoc st conflicts =
        .ok registry2
          { collection := some ⟨coll.docs.set i (updatedDocumentFor originalDoc P)⟩
            nextTimestamp := P + 1
            term := st.term
            oplog := st.oplog ++
              [(⟨P, st.term⟩, updatedDocumentFor originalDoc P)] }
          (updatedDocumentFor originalDoc P) ⟨P, st.term⟩ trace ∧
      (updatedDocumentFor originalDoc P).id = originalDoc.id ∧
      (updatedDocumentFor originalDoc P).databasePrefix =
        originalDoc.databasePrefix ∧
      (updatedDocumentFor originalDoc P).state = .kBlocking ∧
      (updatedDocumentFor originalDoc P).blockTimestamp =
        some (OplogSlot.mk P st.term).timestamp :=
  ⟨st.nextTimestamp + conflicts, _, _,
    dataSync_ok registry originalDoc st conflicts coll i hstate hreg hc hf,
    rfl, rfl, rfl, rfl⟩

/-- C3 witness: the atomic update at tenant "t1". -/
theorem c3_atomic_commit_at_reserved_slot_witness :
    ∃ (P : Nat) (registry2 : MigratingTenantAccessBlockerByPrefix)
      (trace : List Event),
      dataSync [] sampleDoc sampleStorage 0 =
        .ok registry2
          { collection :=
              some ⟨sampleColl.docs.set 0 (updatedDocumentFor sampleDoc P)⟩
            nextTimestamp := P + 1
            term := sampleStorage.term
            oplog := sampleStorage.oplog ++
              [(⟨P, sampleStorage.term⟩, updatedDocumentFor sampleDoc P)] }
          (updatedDocumentFor sampleDoc P) ⟨P, sampleStorage.term⟩ trace ∧
      (updatedDocumentFor sampleDoc P).id = sampleDoc.id ∧
      (updatedDocumentFor sampleDoc P).databasePrefix =
        sampleDoc.databasePrefix ∧
      (updatedDocumentFor sampleDoc P).state = .kBlocking ∧
      (updatedDocumentFor sampleDoc P).blockTimestamp =
        some (OplogSlot.mk P sampleStorage.term).timestamp :=
  c3_atomic_commit_at_reserved_slot [] sampleDoc sampleStorage 0 sampleColl 0
    rfl rfl rfl (by decide)

/-- C4: on replica-role apply of a valid blocking record, a blocker already
registered for the tenant's prefix makes the operation abort fatally via
invariant (never reusing or overwriting it); with none registered, a fresh
blocker is constructed and registered before `startBlockingWrites` runs on it,
as the event order shows. -/
theorem c4_replica_apply_fresh_or_fatal
    (registry : MigratingTenantAccessBlockerByPrefix)
    (donorDoc : TenantMigrationDonorDocument) (T : Nat)
    (hstate : donorDoc.state = .kBlocking)
    (hts : donorDoc.blockTimestamp = some T) :
    ((∃ b, getMigratingTenantBlocker registry donorDoc.databasePrefix = some b) →
      onTransitionToBlocking false registry donorDoc =
        .error .invariantFailure) ∧
    (getMigratingTenantBlocker registry donorDoc.databasePrefix = none →
      ∃ registry2,
        onTransitionToBlocking false registry donorDoc =
          .ok (registry2,
            [.evAddBlocker donorDoc.databasePrefix,
             .evStartBlockingWrites donorDoc.databasePrefix,
             .evStartBlockingReadsAfter donorDoc.databasePrefix T]) ∧
        getMigratingTenantBlocker registry2 donorDoc.databasePrefix =
          some { writesBlocked := true, readsBlockedAfter := some T }) := by
  constructor
  · rintro ⟨b, hb⟩
    simp [onTransitionToBlocking, hstate, hts, hb]
  · intro hreg
    refine ⟨_, onTransitionToBlocking_replica_ok registry donorDoc T
      hstate hts hreg, ?_⟩
    exact getMigratingTenantBlocker_setBlocker _ _ _ _
      (getMigratingTenantBlocker_setBlocker _ _ _ _
        (getMigratingTenantBlocker_append_single registry _ _ hreg))

/-- C4 witness: replica apply at tenant "t1" with boundary 7, both for the
empty registry and for a registry already holding a blocker for "t1". -/
theorem c4_replica_apply_fresh_or_fatal_witness :
    (onTransitionToBlocking false
        [("t1", { writesBlocked := true, readsBlockedAfter := none })]
        sampleBlockingDoc = .error .invariantFailure) ∧
    ∃ registry2,
      onTransitionToBlocking false [] sampleBlockingDoc =
        .ok (registry2,
          [.evAddBlocker sampleBlockingDoc.databasePrefix,
           .evStartBlockingWrites sampleBlockingDoc.databasePrefix,
           .evStartBlockingReadsAfter sampleBlockingDoc.databasePrefix 7]) ∧
      getMigratingTenantBlocker registry2 sampleBlockingDoc.databasePrefix =
        some { writesBlocked := true, readsBlockedAfter := some 7 } :=
  ⟨(c4_replica_apply_fresh_or_fatal
      [("t1", { writesBlocked := true, readsBlockedAfter := none })]
      sampleBlockingDoc 7 rfl rfl).1
    ⟨{ writesBlocked := true, readsBlockedAfter := none }, by decide⟩,
   (c4_replica_apply_fresh_or_fatal [] sampleBlockingDoc 7 rfl rfl).2 rfl⟩

/-- C5: `onTransitionToBlocking` aborts with a fatal invariant failure, never a
silently ignored or recoverable outcome, whenever the record's state is not
`Blocking` or its block timestamp is missing, on either role. -/
theorem c5_blocking_entry_invariants (writesAreReplicated : Bool)
    (registry : MigratingTenantAccessBlockerByPrefix)
    (donorDoc : TenantMigrationDonorDocument)
    (h : donorDoc.state ≠ .kBlocking ∨ donorDoc.blockTimestamp = none) :
    onTransitionToBlocking writesAreReplicated registry donorDoc =
      .error .invariantFailure := by
  rcases h with h | h
  · simp [onTransitionToBlocking, h]
  · by_cases hs : donorDoc.state = .kBlocking
    · simp [onTransitionToBlocking, hs, h]
    · simp [onTransitionToBlocking, hs]

/-- C5 witness: a `Blocking` record with a missing block timestamp, and a
`DataSync` record, both abort fatally on both roles. -/
theorem c5_blocking_entry_invariants_witness :
    onTransitionToBlocking false []
        { id := 1, databasePrefix := "t1", state := .kBlocking,
          blockTimestamp := none } = .error .invariantFailure ∧
    onTransitionToBlocking true [] sampleDoc = .error .invariantFailure :=
  ⟨c5_blocking_entry_invariants false []
      { id := 1, databasePrefix := "t1", state := .kBlocking,
        blockTimestamp := none } (Or.inr rfl),
   c5_blocking_entry_invariants true [] sampleDoc (Or.inl (by decide))⟩

/-- C6: when the migration-donors collection is absent, `dataSync` surfaces a
definite `NamespaceNotFound` failure after a single attempt, for every
conflict schedule (no retry); a transient write conflict retries the entire
persistence closure from the start, so a run with `conflicts` conflicted
attempts performs `conflicts + 1` collection lookups, record re-reads and
oplog-slot reservations. -/
theorem c6_missing_collection_vs_conflict
    (registry : MigratingTenantAccessBlockerByPrefix)
    (originalDoc : TenantMigrationDonorDocument) (st : StorageState)
    (conflicts : Nat)
    (hstate : originalDoc.state = .kDataSync)
    (hreg : getMigratingTenantBlocker registry originalDoc.databasePrefix = none) :
    (st.collection = none →
      dataSync registry originalDoc st conflicts =
        .err .namespaceNotFound
          (registry ++ [(originalDoc.databasePrefix,
            { writesBlocked := true, readsBlockedAfter := none })]) st
          [.evStartBlockingWrites originalDoc.databasePrefix,
           .evAddBlocker originalDoc.databasePrefix,
           .evLookupCollection]) ∧
    (∀ (coll : CollectionState) (i : Nat),
      st.collection = some coll →
      coll.docs.findIdx? (fun d => decide (d = originalDoc)) = some i →
      ∃ (registry2 : MigratingTenantAccessBlockerByPrefix) (st2 : StorageState)
        (updatedDoc : TenantMigrationDonorDocument) (slot : OplogSlot)
        (trace : List Event),
        dataSync registry originalDoc st conflicts =
          .ok registry2 st2 updatedDoc slot trace ∧
        trace.countP Event.isLookupCollection = conflicts + 1 ∧
        trace.countP Event.isFindOne = conflicts + 1 ∧
        trace.countP Event.isReserveOpTime = conflicts + 1) := by
  constructor
  · intro hc
    rw [dataSync,
      startTenantMigrationBlockOnPrimary_ok registry originalDoc hstate hreg,
      doStartBlockingWrite]
    simp [hc, hstate]
  · intro coll i hc hf
    refine ⟨_, _, _, _, _,
      dataSync_ok registry originalDoc st conflicts coll i hstate hreg hc hf,
      ?_, ?_, ?_⟩ <;>
      simp [List.countP_append, List.countP_cons,
        conflictTrace_countP_lookup, conflictTrace_countP_findOne,
        conflictTrace_countP_reserve, Event.isLookupCollection,
        Event.isFindOne, Event.isReserveOpTime]

/-- C6 witness: the missing-collection case, and a run with two conflicted
attempts against the sample collection. -/
theorem c6_missing_collection_vs_conflict_witness :
    (dataSync [] sampleDoc sampleStorageNoColl 3 =
      .err .namespaceNotFound
        [(sampleDoc.databasePrefix,
          { writesBlocked := true, readsBlockedAfter := none })]
        sampleStorageNoColl
        [.evStartBlockingWrites sampleDoc.databasePrefix,
         .evAddBlocker sampleDoc.databasePrefix,
         .evLookupCollection]) ∧
    ∃ (registry2 : MigratingTenantAccessBlockerByPrefix) (st2 : StorageState)
      (updatedDoc : TenantMigrationDonorDocument) (slot : OplogSlot)
      (trace : List Event),
      dataSync [] sampleDoc sampleStorage 2 =
        .ok registry2 st2 updatedDoc slot trace ∧
      trace.countP Event.isLookupCollection = 2 + 1 ∧
      trace.countP Event.isFindOne = 2 + 1 ∧
      trace.countP Event.isReserveOpTime = 2 + 1 := by
  have h1 := (c6_missing_collection_vs_conflict [] sampleDoc
    sampleStorageNoColl 3 rfl rfl).1 rfl
  have h2 := (c6_missing_collection_vs_conflict [] sampleDoc
    sampleStorage 2 rfl rfl).2 sampleColl 0 rfl (by decide)
  exact ⟨by simpa using h1, h2⟩

/-- C7: starting from the same registry with no blocker for the tenant and the
same blocking record with boundary `T`, the primary-role path (preparation on
the primary, then the observer call on the already-registered blocker) and the
replica-role path (blocker constructed inside the observer) both succeed and
leave the tenant's blocker in the identical observable state: writes blocked
and blocked read position `some T`. -/
theorem c7_role_path_equivalence
    (registry : MigratingTenantAccessBlockerByPrefix)
    (dsDoc blkDoc : TenantMigrationDonorDocument) (T : Nat)
    (hds : dsDoc.state = .kDataSync)
    (hb : blkDoc.state = .kBlocking)
    (ht : blkDoc.blockTimestamp = some T)
    (hp : blkDoc.databasePrefix = dsDoc.databasePrefix)
    (hreg : getMigratingTenantBlocker registry dsDoc.databasePrefix = none) :
    ∃ (registry1 : MigratingTenantAccessBlockerByPrefix) (trace1 : List Event)
      (registry2 : MigratingTenantAccessBlockerByPrefix) (trace2 : List Event)
      (registry2' : MigratingTenantAccessBlockerByPrefix)
      (trace2' : List Event),
      startTenantMigrationBlockOnPrimary registry dsDoc =
        .ok (registry1, trace1) ∧
      onTransitionToBlocking true registry1 blkDoc = .ok (registry2, trace2) ∧
      onTransitionToBlocking false registry blkDoc = .ok (registry2', trace2') ∧
      getMigratingTenantBlocker registry2 dsDoc.databasePrefix =
        some { writesBlocked := true, readsBlockedAfter := some T } ∧
      getMigratingTenantBlocker registry2' dsDoc.databasePrefix =
        getMigratingTenantBlocker registry2 dsDoc.databasePrefix := by
  have hreg' : getMigratingTenantBlocker registry blkDoc.databasePrefix =
      none := by rw [hp]; exact hreg
  have h1 : getMigratingTenantBlocker
      (registry ++ [(dsDoc.databasePrefix,
        { writesBlocked := true, readsBlockedAfter := none })])
      blkDoc.databasePrefix =
      some { writesBlocked := true, readsBlockedAfter := none } := by
    rw [hp]
    exact getMigratingTenantBlocker_append_single registry _ _ hreg
  refine ⟨_, _, _, _, _, _,
    startTenantMigrationBlockOnPrimary_ok registry dsDoc hds hreg,
    onTransitionToBlocking_primary_ok _ blkDoc T
      { writesBlocked := true, readsBlockedAfter := none } hb ht h1 rfl,
    onTransitionToBlocking_replica_ok registry blkDoc T hb ht hreg',
    ?_, ?_⟩
  · rw [hp]
    exact getMigratingTenantBlocker_setBlocker _ _ _ _
      (getMigratingTenantBlocker_append_single registry _ _ hreg)
  · rw [hp]
    rw [getMigratingTenantBlocker_setBlocker _ _ _ _
        (getMigratingTenantBlocker_setBlocker _ _ _ _
          (getMigratingTenantBlocker_append_single registry _ _ hreg)),
      getMigratingTenantBlocker_setBlocker _ _ _ _
        (getMigratingTenantBlocker_append_single registry _ _ hreg)]

/-- C7 witness: both role paths at tenant "t1" with boundary 7. -/
theorem c7_role_path_equivalence_witness :
    ∃ (registry1 : MigratingTenantAccessBlockerByPrefix) (trace1 : List Event)
      (registry2 : MigratingTenantAccessBlockerByPrefix) (trace2 : List Event)
      (registry2' : MigratingTenantAccessBlockerByPrefix)
      (trace2' : List Event),
      startTenantMigrationBlockOnPrimary [] sampleDoc =
        .ok (registry1, trace1) ∧
      onTransitionToBlocking true registry1 sampleBlockingDoc =
        .ok (registry2, trace2) ∧
      onTransitionToBlocking false [] sampleBlockingDoc =
        .ok (registry2', trace2') ∧
      getMigratingTenantBlocker registry2 sampleDoc.databasePrefix =
        some { writesBlocked := true, readsBlockedAfter := some 7 } ∧
      getMigratingTenantBlocker registry2' sampleDoc.databasePrefix =
        getMigratingTenantBlocker registry2 sampleDoc.databasePrefix :=
  c7_role_path_equivalence [] sampleDoc sampleBlockingDoc 7
    rfl rfl rfl rfl rfl

/-- C8 counterexample: the replay dispatcher does not reject records observed
in a terminal state — applied to a record whose state is `Committed` (code 2)
or `Aborted` (code 3) it silently succeeds, leaving the registry unchanged,
instead of failing with an integrity violation. -/
theorem c8_counterexample_dispatcher_accepts_terminal :
    onTenantMigrationDonorStateTransition false []
        { id := 1, databasePrefix := "t1", stateCode := 2,
          blockTimestamp := some 5 } = .ok ([], []) ∧
    onTenantMigrationDonorStateTransition false []
        { id := 1, databasePrefix := "t1", stateCode := 3,
          blockTimestamp := some 5 } = .ok ([], []) :=
  ⟨rfl, rfl⟩

/-- C8 (amended): any transition request on a record in a terminal state
through the primary path aborts fatally — `dataSync` and
`startTenantMigrationBlockOnPrimary` fail their `DataSync` invariant — while
the replay dispatcher treats records observed in `Committed` or `Aborted`
state as silent no-ops rather than rejecting them. -/
theorem c8_terminal_state_transitions
    (registry : MigratingTenantAccessBlockerByPrefix)
    (donorDoc : TenantMigrationDonorDocument) (st : StorageState)
    (conflicts : Nat)
    (h : donorDoc.state = .kCommitted ∨ donorDoc.state = .kAborted) :
    dataSync registry donorDoc st conflicts = .fatal .invariantFailure ∧
    startTenantMigrationBlockOnPrimary registry donorDoc =
      .error .invariantFailure ∧
    (∀ (writesAreReplicated : Bool)
        (r : MigratingTenantAccessBlockerByPrefix) (raw : RawDonorDocument),
      raw.stateCode = stateCodeOf donorDoc.state →
      onTenantMigrationDonorStateTransition writesAreReplicated r raw =
        .ok (r, [])) := by
  have hne : donorDoc.state ≠ .kDataSync := by
    rcases h with h | h <;> simp [h]
  have hstm : startTenantMigrationBlockOnPrimary registry donorDoc =
      .error .invariantFailure := by
    simp [startTenantMigrationBlockOnPrimary, hne]
  refine ⟨?_, hstm, ?_⟩
  · rw [dataSync, hstm]
  · intro rep r raw hcode
    rcases h with h | h <;>
      · rw [h] at hcode
        rw [onTenantMigrationDonorStateTransition, hcode]
        rfl

/-- C8 witness: a `Committed` record at tenant "t1". -/
theorem c8_terminal_state_transitions_witness :
    dataSync []
        { id := 1, databasePrefix := "t1", state := .kCommitted,
          blockTimestamp := some 5 } sampleStorage 0 =
      .fatal .invariantFailure ∧
    startTenantMigrationBlockOnPrimary []
        { id := 1, databasePrefix := "t1", state := .kCommitted,
          blockTimestamp := some 5 } = .error .invariantFailure ∧
    (∀ (writesAreReplicated : Bool)
        (r : MigratingTenantAccessBlockerByPrefix) (raw : RawDonorDocument),
      raw.stateCode = stateCodeOf TenantMigrationDonorStateEnum.kCommitted →
      onTenantMigrationDonorStateTransition writesAreReplicated r raw =
        .ok (r, [])) :=
  c8_terminal_state_transitions []
    { id := 1, databasePrefix := "t1", state := .kCommitted,
      blockTimestamp := some 5 } sampleStorage 0 (Or.inl rfl)

/-- C9 counterexample: a failing `dataSync` is not effect-free — with the
migration-donors collection absent it returns a definite failure, yet the
registry now holds the freshly registered blocker for "t1" with
`writesBlocked = true` while the durable record was never updated. -/
theorem c9_counterexample_partial_effect :
    (dataSync [] sampleDoc sampleStorageNoColl 0).isErr = true ∧
    ((dataSync [] sampleDoc sampleStorageNoColl 0).registryAfter.bind
        fun r => getMigratingTenantBlocker r "t1") =
      some { writesBlocked := true, readsBlockedAfter := none } :=
  ⟨rfl, rfl⟩

/-- C9 (amended): when the persistence step fails with `NamespaceNotFound`,
`dataSync` returns a definite failure and the durable storage is unchanged,
but the blocker registered by `startTenantMigrationBlockOnPrimary` is not
rolled back: it remains in the registry with `writesBlocked = true` while the
record still says `DataSync`. -/
theorem c9_failure_leaves_blocker_registered
    (registry : MigratingTenantAccessBlockerByPrefix)
    (originalDoc : TenantMigrationDonorDocument) (st : StorageState)
    (conflicts : Nat)
    (hstate : originalDoc.state = .kDataSync)
    (hreg : getMigratingTenantBlocker registry originalDoc.databasePrefix = none)
    (hc : st.collection = none) :
    dataSync registry originalDoc st conflicts =
      .err .namespaceNotFound
        (registry ++ [(originalDoc.databasePrefix,
          { writesBlocked := true, readsBlockedAfter := none })]) st
        [.evStartBlockingWrites originalDoc.databasePrefix,
         .evAddBlocker originalDoc.databasePrefix,
         .evLookupCollection] ∧
    getMigratingTenantBlocker
        (registry ++ [(originalDoc.databasePrefix,
          { writesBlocked := true, readsBlockedAfter := none })])
        originalDoc.databasePrefix =
      some { writesBlocked := true, readsBlockedAfter := none } := by
  constructor
  · rw [dataSync,
      startTenantMigrationBlockOnPrimary_ok registry originalDoc hstate hreg,
      doStartBlockingWrite]
    simp [hc, hstate]
  · exact getMigratingTenantBlocker_append_single registry _ _ hreg

/-- C9 witness: the partial effect at tenant "t1". -/
theorem c9_failure_leaves_blocker_registered_witness :
    dataSync [] sampleDoc sampleStorageNoColl 0 =
      .err .namespaceNotFound
        [(sampleDoc.databasePrefix,
          { writesBlocked := true, readsBlockedAfter := none })]
        sampleStorageNoColl
        [.evStartBlockingWrites sampleDoc.databasePrefix,
         .evAddBlocker sampleDoc.databasePrefix,
         .evLookupCollection] ∧
    getMigratingTenantBlocker
        [(sampleDoc.databasePrefix,
          { writesBlocked := true, readsBlockedAfter := none })]
        sampleDoc.databasePrefix =
      some { writesBlocked := true, readsBlockedAfter := none } := by
  have h := c9_failure_leaves_blocker_registered [] sampleDoc
    sampleStorageNoColl 0 rfl rfl rfl
  simpa using h

/-- C10: the replay dispatcher leaves the registry and every blocker unchanged
(and records no events) for records in `DataSync`, `Committed` or `Aborted`
state, and aborts as unreachable for any state value outside the four
enumerants. -/
theorem c10_dispatcher_frame (writesAreReplicated : Bool)
    (registry : MigratingTenantAccessBlockerByPrefix)
    (raw : RawDonorDocument) :
    (raw.stateCode = 0 ∨ raw.stateCode = 2 ∨ raw.stateCode = 3 →
      onTenantMigrationDonorStateTransition writesAreReplicated registry raw =
        .ok (registry, [])) ∧
    (4 ≤ raw.stateCode →
      onTenantMigrationDonorStateTransition writesAreReplicated registry raw =
        .error .unreachableError) := by
  constructor
  · rintro (h | h | h) <;> rw [onTenantMigrationDonorStateTransition, h]
  · intro h
    obtain ⟨k, hk⟩ : ∃ k, raw.stateCode = k + 4 := ⟨raw.stateCode - 4, by omega⟩
    rw [onTenantMigrationDonorStateTransition, hk]
    rfl

/-- C10 witness: a `DataSync` record is a no-op and state code 7 is
unreachable. -/
theorem c10_dispatcher_frame_witness :
    onTenantMigrationDonorStateTransition true []
        { id := 1, databasePrefix := "t1", stateCode := 0,
          blockTimestamp := none } = .ok ([], []) ∧
    onTenantMigrationDonorStateTransition true []
        { id := 1, databasePrefix := "t1", stateCode := 7,
          blockTimestamp := none } = .error .unreachableError :=
  ⟨(c10_dispatcher_frame true []
      { id := 1, databasePrefix := "t1", stateCode := 0,
        blockTimestamp := none }).1 (Or.inl rfl),
   (c10_dispatcher_frame true []
      { id := 1, databasePrefix := "t1", stateCode := 7,
        blockTimestamp := none }).2 (by norm_num)⟩

end MigratingTenantDonor
